import Mathlib

/-!
Shallow embedding of `parse.go` from the `ovpnstats` repository: a line-oriented
parser for the `openvpn-status.log` format.

Modelling conventions:
* Go strings are Lean `String`s; `strings.Split` is `String.splitOn` (identical
  semantics for the non-empty one-character separator `","`: every occurrence
  splits, empty fields are preserved, the empty string splits to `[""]`).
* Go `int` is 64-bit; `strconv.Atoi` is modelled as `Atoi : String → Option Int`
  (sign, decimal digits, `int64` range check; `none` is a non-nil `error`).
* A Go slice index `parts[i]` out of range is a runtime panic, which is *not* an
  error value.  Decoders therefore return a tri-valued `ParseResult`:
  `.panic` (uncontrolled index-out-of-range failure), `.error` (a returned
  non-nil `error`, i.e. the spec's MalformedNumericField), or `.ok`.
* `time.Unix sec nsec` is modelled by `timeUnix` on a record of seconds and
  nanoseconds; the source only ever passes `nsec = 0`.
* `ParseStatusFile` is modelled from the point where `os.Open` has succeeded:
  the `bufio.Scanner` loop over the file's lines becomes a function on
  `List String`.  The `os.Open` failure path (StreamUnavailable) is caller I/O
  outside the embedding.
-/

/-- Outcome of running a piece of Go code that may panic (index out of range),
return a non-nil error, or succeed. -/
inductive ParseResult (α : Type) where
  | panic : ParseResult α
  | error : ParseResult α
  | ok : α → ParseResult α
  deriving DecidableEq, Repr

/-- Go sequencing: a panic or an early `return ..., err` short-circuits. -/
def ParseResult.bind {α β : Type} : ParseResult α → (α → ParseResult β) → ParseResult β
  | .panic, _ => .panic
  | .error, _ => .error
  | .ok a, f => f a

/-- Source: `const splitCharacter = ","`. -/
def splitCharacter : String := ","

/-- Splitting a character list at every `','`: the ordered list of maximal
comma-free chunks, preserving empty chunks (consecutive commas) and the empty
chunk at either end; `[]` splits to `[[]]`.  This is exactly Go
`strings.Split` for the one-character separator, written by structural
recursion so that it reduces in the kernel (`String.splitOn` agrees but is
defined by well-founded recursion). -/
def splitCommaChars : List Char → List (List Char)
  | [] => [[]]
  | c :: cs =>
    if c = ',' then [] :: splitCommaChars cs
    else
      match splitCommaChars cs with
      | [] => [[c]]
      | f :: rest => (c :: f) :: rest

/-- Go `strings.Split(line, splitCharacter)`. -/
def splitComma (line : String) : List String :=
  (splitCommaChars line.data).map List.asString

/-- Digit-run part of `strconv.Atoi`: all characters must be ASCII decimal
digits, the value is accumulated in base 10, negated when a `-` sign was
consumed, and must fit in `int64` (Go returns an `ErrRange` error otherwise). -/
def atoiCore (digits : List Char) (neg : Bool) : Option Int :=
  if digits = [] ∨ ¬ digits.all Char.isDigit then none
  else
    let n : Nat := digits.foldl (fun a c => a * 10 + (c.toNat - 48)) 0
    let v : Int := if neg then -(n : Int) else (n : Int)
    if -(2 ^ 63) ≤ v ∧ v < 2 ^ 63 then some v else none

/-- Go `strconv.Atoi`: an optional single `+`/`-` sign followed by one or more
decimal digits, in `int64` range; every failure is a non-nil `error` (`none`). -/
def Atoi (s : String) : Option Int :=
  match s.data with
  | [] => none
  | c :: cs =>
    if c = '-' then atoiCore cs true
    else if c = '+' then atoiCore cs false
    else atoiCore (c :: cs) false

/-- Go `time.Time`, reduced to the two components the program can produce:
seconds and nanoseconds since the Unix epoch. -/
structure GoTime where
  sec : Int
  nsec : Int
  deriving DecidableEq, Repr

/-- Go `time.Unix sec nsec`, including its normalisation of `nsec` into
`[0, 1e9)`; the parser only ever passes `nsec = 0`, for which the
normalisation branch is not taken.  Go integer division truncates toward
zero, which is `Int.div`. -/
def timeUnix (sec nsec : Int) : GoTime :=
  if nsec < 0 ∨ 1000000000 ≤ nsec then
    let n := Int.tdiv nsec 1000000000
    let sec2 := sec + n
    let nsec2 := nsec - n * 1000000000
    if nsec2 < 0 then ⟨sec2 - 1, nsec2 + 1000000000⟩ else ⟨sec2, nsec2⟩
  else ⟨sec, nsec⟩

/-- Source `ClientInfo` struct: one CLIENT_LIST entry. -/
structure ClientInfo where
  Name : String
  RealAddress : String
  VirtualAddress : String
  VirtualV6Address : String
  BytesReceived : Int
  BytesSent : Int
  ConnectedSince : GoTime
  Username : String
  ClientID : Int
  PeerID : Int
  DataChannelCipher : String
  deriving DecidableEq, Repr

/-- Source `RoutingInfo` struct: one ROUTING_TABLE entry. -/
structure RoutingInfo where
  VirtualAddress : String
  CommonName : String
  RealAddress : String
  LastRef : GoTime
  deriving DecidableEq, Repr

/-- Go slice read `parts[i]`: panics when `i` is out of range. -/
def getField (parts : List String) (i : Nat) : ParseResult String :=
  match parts[i]? with
  | some s => .ok s
  | none => .panic

/-- Go `strconv.Atoi(parts[i])`: panics when `i` is out of range, returns the
error when the string does not parse. -/
def atoiField (parts : List String) (i : Nat) : ParseResult Int :=
  match parts[i]? with
  | none => .panic
  | some s =>
    match Atoi s with
    | none => .error
    | some n => .ok n

/-- Body of `parseClientListEntry` after `parts := strings.Split(line, ",")`,
in the source's evaluation order: the five `Atoi` calls on positions
5, 6, 8, 10, 11 (each early-returning its error), then the composite literal
reading positions 1, 2, 3, 4, 9, 12 left to right. -/
def parseClientListParts (parts : List String) : ParseResult ClientInfo :=
  (atoiField parts 5).bind fun bytesReceived =>
  (atoiField parts 6).bind fun bytesSent =>
  (atoiField parts 8).bind fun connectedSinceUnix =>
  (atoiField parts 10).bind fun clientID =>
  (atoiField parts 11).bind fun peerID =>
  (getField parts 1).bind fun name =>
  (getField parts 2).bind fun realAddress =>
  (getField parts 3).bind fun virtualAddress =>
  (getField parts 4).bind fun virtualV6Address =>
  (getField parts 9).bind fun username =>
  (getField parts 12).bind fun dataChannelCipher =>
  .ok ⟨name, realAddress, virtualAddress, virtualV6Address, bytesReceived,
    bytesSent, timeUnix connectedSinceUnix 0, username, clientID, peerID,
    dataChannelCipher⟩

/-- Source `parseClientListEntry`: split the line, then decode. -/
def parseClientListEntry (line : String) : ParseResult ClientInfo :=
  parseClientListParts (splitComma line)

/-- Body of `parseRoutingTableEntry` after the split: `Atoi` on position 5,
then the composite literal reading positions 1, 2, 3. -/
def parseRoutingTableParts (parts : List String) : ParseResult RoutingInfo :=
  (atoiField parts 5).bind fun lastRefUnix =>
  (getField parts 1).bind fun virtualAddress =>
  (getField parts 2).bind fun commonName =>
  (getField parts 3).bind fun realAddress =>
  .ok ⟨virtualAddress, commonName, realAddress, timeUnix lastRefUnix 0⟩

/-- Source `parseRoutingTableEntry`: split the line, then decode. -/
def parseRoutingTableEntry (line : String) : ParseResult RoutingInfo :=
  parseRoutingTableParts (splitComma line)

/-- Scanner loop of `ParseStatusFile` over the file's lines.  Each line is
split and dispatched on `parts[0]`: `HEADER` is skipped, `END` hits a `break`
that only exits the `switch` (a no-op, the loop continues), `CLIENT_LIST` and
`ROUTING_TABLE` invoke their decoder — on a decode error the function returns
`nil, nil, err` at once, modelled by a bare `.error` carrying no partial
collections — and any other marker falls through the inner `switch` doing
nothing.  `strings.Split` never returns an empty list, so `parts[0]` is
`List.headI`. -/
def ParseStatusFile : List String → ParseResult (List ClientInfo × List RoutingInfo)
  | [] => .ok ([], [])
  | line :: rest =>
    let marker := (splitComma line).headI
    if marker = "HEADER" then ParseStatusFile rest
    else if marker = "END" then ParseStatusFile rest
    else if marker = "CLIENT_LIST" then
      match parseClientListEntry line with
      | .panic => .panic
      | .error => .error
      | .ok info =>
        match ParseStatusFile rest with
        | .panic => .panic
        | .error => .error
        | .ok (cs, rs) => .ok (info :: cs, rs)
    else if marker = "ROUTING_TABLE" then
      match parseRoutingTableEntry line with
      | .panic => .panic
      | .error => .error
      | .ok info =>
        match ParseStatusFile rest with
        | .panic => .panic
        | .error => .error
        | .ok (cs, rs) => .ok (cs, info :: rs)
    else ParseStatusFile rest

/-! ### Helper lemmas about field access and the decoders -/

theorem get?_eq_some_getD {parts : List String} {i : Nat} (h : i < parts.length) :
    parts[i]? = some (parts.getD i "") := by
  rw [List.getD_eq_getElem?_getD, List.getElem?_eq_getElem h]
  rfl

@[simp] theorem timeUnix_zero (sec : Int) : timeUnix sec 0 = ⟨sec, 0⟩ := by
  simp [timeUnix]

/-- Total description of the client-list decoder on a field sequence long
enough that no index is out of range: only the eleven used positions matter. -/
def clientDecodeFields (s1 s2 s3 s4 s5 s6 s8 s9 s10 s11 s12 : String) :
    ParseResult ClientInfo :=
  match Atoi s5 with
  | none => .error
  | some bytesReceived =>
  match Atoi s6 with
  | none => .error
  | some bytesSent =>
  match Atoi s8 with
  | none => .error
  | some connectedSinceUnix =>
  match Atoi s10 with
  | none => .error
  | some clientID =>
  match Atoi s11 with
  | none => .error
  | some peerID =>
  .ok ⟨s1, s2, s3, s4, bytesReceived, bytesSent, timeUnix connectedSinceUnix 0,
    s9, clientID, peerID, s12⟩

theorem parseClientListParts_eq (parts : List String) (h : 13 ≤ parts.length) :
    parseClientListParts parts =
      clientDecodeFields (parts.getD 1 "") (parts.getD 2 "") (parts.getD 3 "")
        (parts.getD 4 "") (parts.getD 5 "") (parts.getD 6 "") (parts.getD 8 "")
        (parts.getD 9 "") (parts.getD 10 "") (parts.getD 11 "")
        (parts.getD 12 "") := by
  simp only [parseClientListParts, atoiField, getField,
    get?_eq_some_getD (show 1 < parts.length by omega),
    get?_eq_some_getD (show 2 < parts.length by omega),
    get?_eq_some_getD (show 3 < parts.length by omega),
    get?_eq_some_getD (show 4 < parts.length by omega),
    get?_eq_some_getD (show 5 < parts.length by omega),
    get?_eq_some_getD (show 6 < parts.length by omega),
    get?_eq_some_getD (show 8 < parts.length by omega),
    get?_eq_some_getD (show 9 < parts.length by omega),
    get?_eq_some_getD (show 10 < parts.length by omega),
    get?_eq_some_getD (show 11 < parts.length by omega),
    get?_eq_some_getD (show 12 < parts.length by omega)]
  rcases h5 : Atoi (parts.getD 5 "") with _ | b5 <;>
  rcases h6 : Atoi (parts.getD 6 "") with _ | b6 <;>
  rcases h8 : Atoi (parts.getD 8 "") with _ | t8 <;>
  rcases h10 : Atoi (parts.getD 10 "") with _ | c10 <;>
  rcases h11 : Atoi (parts.getD 11 "") with _ | p11 <;>
  simp only [clientDecodeFields, ParseResult.bind, h5, h6, h8, h10, h11]

/-- Total description of the routing-table decoder on a field sequence long
enough that no index is out of range: only the four used positions matter. -/
def routingDecodeFields (s1 s2 s3 s5 : String) : ParseResult RoutingInfo :=
  match Atoi s5 with
  | none => .error
  | some lastRefUnix => .ok ⟨s1, s2, s3, timeUnix lastRefUnix 0⟩

theorem parseRoutingTableParts_eq (parts : List String) (h : 6 ≤ parts.length) :
    parseRoutingTableParts parts =
      routingDecodeFields (parts.getD 1 "") (parts.getD 2 "") (parts.getD 3 "")
        (parts.getD 5 "") := by
  simp only [parseRoutingTableParts, atoiField, getField,
    get?_eq_some_getD (show 1 < parts.length by omega),
    get?_eq_some_getD (show 2 < parts.length by omega),
    get?_eq_some_getD (show 3 < parts.length by omega),
    get?_eq_some_getD (show 5 < parts.length by omega)]
  rcases h5 : Atoi (parts.getD 5 "") with _ | n5 <;>
  simp only [routingDecodeFields, ParseResult.bind, h5]

theorem ParseResult.bind_eq_ok {α β : Type} {x : ParseResult α}
    {f : α → ParseResult β} {b : β} (h : x.bind f = .ok b) :
    ∃ a, x = .ok a ∧ f a = .ok b := by
  cases x <;> simp_all [ParseResult.bind]

/-- A successful client-list decode forces at least 13 fields: the last access
is `parts[12]`. -/
theorem parseClientListParts_ok_length {parts : List String} {info : ClientInfo}
    (h : parseClientListParts parts = .ok info) : 13 ≤ parts.length := by
  simp only [parseClientListParts] at h
  obtain ⟨b5, -, h⟩ := ParseResult.bind_eq_ok h
  obtain ⟨b6, -, h⟩ := ParseResult.bind_eq_ok h
  obtain ⟨t8, -, h⟩ := ParseResult.bind_eq_ok h
  obtain ⟨c10, -, h⟩ := ParseResult.bind_eq_ok h
  obtain ⟨p11, -, h⟩ := ParseResult.bind_eq_ok h
  obtain ⟨s1, -, h⟩ := ParseResult.bind_eq_ok h
  obtain ⟨s2, -, h⟩ := ParseResult.bind_eq_ok h
  obtain ⟨s3, -, h⟩ := ParseResult.bind_eq_ok h
  obtain ⟨s4, -, h⟩ := ParseResult.bind_eq_ok h
  obtain ⟨s9, -, h⟩ := ParseResult.bind_eq_ok h
  obtain ⟨s12, h12, -⟩ := ParseResult.bind_eq_ok h
  simp only [getField] at h12
  by_contra hlt
  push_neg at hlt
  rw [List.getElem?_eq_none (show parts.length ≤ 12 by omega)] at h12
  simp at h12

/-- A successful routing-table decode forces at least 6 fields: the first
access is `parts[5]`. -/
theorem parseRoutingTableParts_ok_length {parts : List String} {info : RoutingInfo}
    (h : parseRoutingTableParts parts = .ok info) : 6 ≤ parts.length := by
  simp only [parseRoutingTableParts] at h
  obtain ⟨n5, h5, -⟩ := ParseResult.bind_eq_ok h
  simp only [atoiField] at h5
  by_contra hlt
  push_neg at hlt
  rw [List.getElem?_eq_none (show parts.length ≤ 5 by omega)] at h5
  simp at h5

theorem clientDecodeFields_ok_inv {s1 s2 s3 s4 s5 s6 s8 s9 s10 s11 s12 : String}
    {info : ClientInfo}
    (h : clientDecodeFields s1 s2 s3 s4 s5 s6 s8 s9 s10 s11 s12 = .ok info) :
    Atoi s5 = some info.BytesReceived ∧ Atoi s6 = some info.BytesSent ∧
    Atoi s8 = some info.ConnectedSince.sec ∧ info.ConnectedSince.nsec = 0 ∧
    Atoi s10 = some info.ClientID ∧ Atoi s11 = some info.PeerID ∧
    info.Name = s1 ∧ info.RealAddress = s2 ∧ info.VirtualAddress = s3 ∧
    info.VirtualV6Address = s4 ∧ info.Username = s9 ∧
    info.DataChannelCipher = s12 := by
  rcases h5 : Atoi s5 with _ | b5 <;>
  rcases h6 : Atoi s6 with _ | b6 <;>
  rcases h8 : Atoi s8 with _ | t8 <;>
  rcases h10 : Atoi s10 with _ | c10 <;>
  rcases h11 : Atoi s11 with _ | p11 <;>
  simp only [clientDecodeFields, h5, h6, h8, h10, h11] at h <;>
  first
    | exact ParseResult.noConfusion h
    | (obtain rfl := ParseResult.ok.inj h
       simp [h5, h6, h8, h10, h11])

theorem routingDecodeFields_ok_inv {s1 s2 s3 s5 : String} {info : RoutingInfo}
    (h : routingDecodeFields s1 s2 s3 s5 = .ok info) :
    Atoi s5 = some info.LastRef.sec ∧ info.LastRef.nsec = 0 ∧
    info.VirtualAddress = s1 ∧ info.CommonName = s2 ∧ info.RealAddress = s3 := by
  rcases h5 : Atoi s5 with _ | n5 <;>
  simp only [routingDecodeFields, h5] at h <;>
  first
    | exact ParseResult.noConfusion h
    | (obtain rfl := ParseResult.ok.inj h
       simp [h5])

/-- Parsing an unsigned numeral (`atoiCore` with no `-` sign consumed) yields a
non-negative value. -/
theorem atoiCore_false_nonneg {ds : List Char} {n : Int}
    (h : atoiCore ds false = some n) : 0 ≤ n := by
  simp only [atoiCore, Bool.false_eq_true, if_false] at h
  split at h
  · exact absurd h (by simp)
  · split at h
    · obtain rfl := Option.some.inj h
      omega
    · exact absurd h (by simp)

/-- `strconv.Atoi` only returns a negative value when the string begins with a
`-` sign. -/
theorem Atoi_nonneg {s : String} {n : Int} (h : Atoi s = some n)
    (hs : s.data.head? ≠ some '-') : 0 ≤ n := by
  rcases e : s.data with _ | ⟨c, cs⟩ <;> simp only [Atoi, e] at h
  · exact Option.noConfusion h
  · have hc : c ≠ '-' := by
      intro hcon
      exact hs (by rw [e, hcon]; rfl)
    rw [if_neg hc] at h
    split at h
    · exact atoiCore_false_nonneg h
    · exact atoiCore_false_nonneg h

/-! ### Helper lemmas about the scanner loop -/

/-- Scanning a concatenation: the left part runs first; its panic or error is
the whole result, and on success the right part's records are appended. -/
theorem ParseStatusFile_append (xs ys : List String) :
    ParseStatusFile (xs ++ ys) =
      (ParseStatusFile xs).bind fun p =>
        (ParseStatusFile ys).bind fun q => .ok (p.1 ++ q.1, p.2 ++ q.2) := by
  induction xs with
  | nil =>
    rcases hy : ParseStatusFile ys with _ | _ | ⟨qc, qr⟩ <;>
      simp [ParseStatusFile, ParseResult.bind, hy]
  | cons l rest ih =>
    by_cases hH : (splitComma l).headI = "HEADER"
    · simpa [ParseStatusFile, hH] using ih
    · by_cases hE : (splitComma l).headI = "END"
      · simpa [ParseStatusFile, hH, hE] using ih
      · by_cases hC : (splitComma l).headI = "CLIENT_LIST"
        · rcases hc : parseClientListEntry l with _ | _ | info <;>
            simp only [List.cons_append, ParseStatusFile, hH, hE, hC, hc,
              if_false, if_true, if_neg, if_pos, ih, ParseResult.bind] <;>
            simp [hH, hE, hC, hc, ih, ParseResult.bind] <;>
            rcases hr : ParseStatusFile rest with _ | _ | ⟨pc, pr⟩ <;>
            rcases hy : ParseStatusFile ys with _ | _ | ⟨qc, qr⟩ <;>
            simp_all [ParseResult.bind]
        · by_cases hR : (splitComma l).headI = "ROUTING_TABLE"
          · rcases hc : parseRoutingTableEntry l with _ | _ | info <;>
              simp only [List.cons_append, ParseStatusFile, hH, hE, hC, hR, hc,
                if_false, if_true, if_neg, if_pos, ih, ParseResult.bind] <;>
              simp [hH, hE, hC, hR, hc, ih, ParseResult.bind] <;>
              rcases hr : ParseStatusFile rest with _ | _ | ⟨pc, pr⟩ <;>
              rcases hy : ParseStatusFile ys with _ | _ | ⟨qc, qr⟩ <;>
              simp_all [ParseResult.bind]
          · simpa [ParseStatusFile, hH, hE, hC, hR] using ih

/-- A line whose leading field is neither `CLIENT_LIST` nor `ROUTING_TABLE`
(so `HEADER`, `END`, or any unrecognized marker) is a no-op: the scan of the
remaining lines is unchanged. -/
theorem ParseStatusFile_cons_skip (line : String) (rest : List String)
    (hC : (splitComma line).headI ≠ "CLIENT_LIST")
    (hR : (splitComma line).headI ≠ "ROUTING_TABLE") :
    ParseStatusFile (line :: rest) = ParseStatusFile rest := by
  by_cases hH : (splitComma line).headI = "HEADER"
  · simp [ParseStatusFile, hH]
  · by_cases hE : (splitComma line).headI = "END"
    · simp [ParseStatusFile, hH, hE]
    · simp [ParseStatusFile, hH, hE, hC, hR]

/-- When the field sequence reaches position 11 and one of the five required
integer positions holds a non-integer, the client-list decoder returns the
error (the first failing `Atoi` early-returns before any further index is
touched). -/
theorem parseClientListParts_error_of_bad (parts : List String)
    (hlen : 12 ≤ parts.length)
    (hbad : Atoi (parts.getD 5 "") = none ∨ Atoi (parts.getD 6 "") = none ∨
      Atoi (parts.getD 8 "") = none ∨ Atoi (parts.getD 10 "") = none ∨
      Atoi (parts.getD 11 "") = none) :
    parseClientListParts parts = .error := by
  simp only [parseClientListParts, atoiField,
    get?_eq_some_getD (show 5 < parts.length by omega),
    get?_eq_some_getD (show 6 < parts.length by omega),
    get?_eq_some_getD (show 8 < parts.length by omega),
    get?_eq_some_getD (show 10 < parts.length by omega),
    get?_eq_some_getD (show 11 < parts.length by omega)]
  rcases h5 : Atoi (parts.getD 5 "") with _ | b5 <;>
  rcases h6 : Atoi (parts.getD 6 "") with _ | b6 <;>
  rcases h8 : Atoi (parts.getD 8 "") with _ | t8 <;>
  rcases h10 : Atoi (parts.getD 10 "") with _ | c10 <;>
  rcases h11 : Atoi (parts.getD 11 "") with _ | p11 <;>
  simp only [ParseResult.bind] <;>
  simp_all

theorem getD_take_13 (parts : List String) (i : Nat) (h : i < 13) :
    (parts.take 13).getD i "" = parts.getD i "" := by
  rw [List.getD_eq_getElem?_getD, List.getD_eq_getElem?_getD,
    List.getElem?_take, if_pos h]

/-! ### The claims -/

/-- Claim C1 fails as stated: decoding the concrete one-field CLIENT_LIST
line hits `parts[5]` out of range — an uncontrolled panic, not a
MalformedNumericField error value — and the one-field ROUTING_TABLE line
panics the same way, so a short field sequence is not "handled as this error
kind". -/
theorem short_line_panics_c1_cex :
    parseClientListEntry "CLIENT_LIST" = .panic ∧
    parseClientListEntry "CLIENT_LIST" ≠ .error ∧
    parseRoutingTableEntry "ROUTING_TABLE" = .panic ∧
    parseRoutingTableEntry "ROUTING_TABLE" ≠ .error := by decide

/-- Claim C1 (amended): a CLIENT_LIST field sequence with fewer than 13
positions, or a ROUTING_TABLE sequence with fewer than 6, never decodes into
a record; but rather than always being reported as a MalformedNumericField
error value, the out-of-range access surfaces as an uncontrolled panic
whenever no in-range numeric field fails to parse first. -/
theorem short_sequences_never_decode_c1 :
    (∀ (parts : List String) (info : ClientInfo), parts.length < 13 →
      parseClientListParts parts ≠ .ok info) ∧
    (∀ (parts : List String) (info : RoutingInfo), parts.length < 6 →
      parseRoutingTableParts parts ≠ .ok info) := by
  constructor
  · intro parts info hlt h
    exact absurd (parseClientListParts_ok_length h) (by omega)
  · intro parts info hlt h
    exact absurd (parseRoutingTableParts_ok_length h) (by omega)

theorem short_sequences_never_decode_c1_wit :
    parseClientListParts ["CLIENT_LIST"] ≠
      .ok ⟨"", "", "", "", 0, 0, ⟨0, 0⟩, "", 0, 0, ""⟩ :=
  short_sequences_never_decode_c1.1 ["CLIENT_LIST"] _ (by decide)

/-- Claim C2: when the preceding lines scan cleanly, a CLIENT_LIST line whose
field sequence reaches position 11 but holds a non-base-10-integer in one of
the five required integer positions (5, 6, 8, 10, 11) makes the whole scan
return the MalformedNumericField error: the line contributes no record, no
later line is processed (the result is `.error` for every suffix), and the
result carries no partial collections (Go returns `nil, nil, err`). -/
theorem bad_integer_aborts_scan_c2 (pre suf : List String) (line : String)
    (acc : List ClientInfo × List RoutingInfo)
    (hpre : ParseStatusFile pre = .ok acc)
    (hmark : (splitComma line).headI = "CLIENT_LIST")
    (hlen : 12 ≤ (splitComma line).length)
    (hbad : Atoi ((splitComma line).getD 5 "") = none ∨
      Atoi ((splitComma line).getD 6 "") = none ∨
      Atoi ((splitComma line).getD 8 "") = none ∨
      Atoi ((splitComma line).getD 10 "") = none ∨
      Atoi ((splitComma line).getD 11 "") = none) :
    ParseStatusFile (pre ++ line :: suf) = .error := by
  have hline : parseClientListEntry line = .error :=
    parseClientListParts_error_of_bad (splitComma line) hlen hbad
  have hstep : ParseStatusFile (line :: suf) = .error := by
    simp [ParseStatusFile, hmark, hline]
  rw [ParseStatusFile_append, hpre]
  simp [ParseResult.bind, hstep]

theorem bad_integer_aborts_scan_c2_wit :
    ParseStatusFile
      ["HEADER,foo", "CLIENT_LIST,a,b,c,d,xx,0,t,0,u,0,0",
        "ROUTING_TABLE,v,n,r,t,5"] = .error :=
  bad_integer_aborts_scan_c2 ["HEADER,foo"] ["ROUTING_TABLE,v,n,r,t,5"]
    "CLIENT_LIST,a,b,c,d,xx,0,t,0,u,0,0" ([], []) (by decide) (by decide)
    (by decide) (Or.inl (by decide))

/-- Claim C3: an END line does not terminate scanning — inserting it anywhere
leaves the scan result identical to the scan without it, so every CLIENT_LIST
or ROUTING_TABLE line after an END line is still decoded and its record
appended exactly as if the END line were absent. -/
theorem end_line_does_not_terminate_c3 (pre suf : List String) (line : String)
    (h : (splitComma line).headI = "END") :
    ParseStatusFile (pre ++ line :: suf) = ParseStatusFile (pre ++ suf) := by
  rw [ParseStatusFile_append, ParseStatusFile_append,
    ParseStatusFile_cons_skip line suf (by rw [h]; decide) (by rw [h]; decide)]

theorem end_line_does_not_terminate_c3_wit :
    ParseStatusFile
      ["HEADER,x", "END", "CLIENT_LIST,a,b,c,d,1,2,t,3,u,4,5,ci"] =
    ParseStatusFile ["HEADER,x", "CLIENT_LIST,a,b,c,d,1,2,t,3,u,4,5,ci"] :=
  end_line_does_not_terminate_c3 ["HEADER,x"]
    ["CLIENT_LIST,a,b,c,d,1,2,t,3,u,4,5,ci"] "END" (by decide)

/-- Claim C4: every CLIENT_LIST field sequence with at least 13 comma-split
fields whose positions 5, 6, 8, 10, 11 parse as base-10 integers decodes
successfully into the ClientInfo with Name = field 1, RealAddress = field 2,
VirtualAddress = field 3, VirtualV6Address = field 4 (verbatim, possibly
empty), BytesReceived and BytesSent the parsed integers of fields 5 and 6,
ConnectedSince the absolute timestamp of field 8 epoch seconds with zero
fractional seconds, Username = field 9, ClientID and PeerID the parsed
integers of fields 10 and 11, and DataChannelCipher = field 12; the witness
instantiates it on the spec's concrete alice line. -/
theorem client_list_decode_fields_c4 (parts : List String)
    (h13 : 13 ≤ parts.length) (b5 b6 t8 c10 p11 : Int)
    (h5 : Atoi (parts.getD 5 "") = some b5)
    (h6 : Atoi (parts.getD 6 "") = some b6)
    (h8 : Atoi (parts.getD 8 "") = some t8)
    (h10 : Atoi (parts.getD 10 "") = some c10)
    (h11 : Atoi (parts.getD 11 "") = some p11) :
    parseClientListParts parts =
      .ok ⟨parts.getD 1 "", parts.getD 2 "", parts.getD 3 "", parts.getD 4 "",
        b5, b6, ⟨t8, 0⟩, parts.getD 9 "", c10, p11, parts.getD 12 ""⟩ := by
  rw [parseClientListParts_eq parts h13]
  simp only [clientDecodeFields, h5, h6, h8, h10, h11, timeUnix_zero]

theorem client_list_decode_fields_c4_wit :
    parseClientListEntry
      "CLIENT_LIST,alice,1.2.3.4,10.0.0.1,,1000,2000,Mon Jan 1 00:00:00 2024,1704067200,alice,5,6,AES-256-GCM" =
    .ok ⟨"alice", "1.2.3.4", "10.0.0.1", "", 1000, 2000, ⟨1704067200, 0⟩,
      "alice", 5, 6, "AES-256-GCM"⟩ :=
  client_list_decode_fields_c4
    (splitComma "CLIENT_LIST,alice,1.2.3.4,10.0.0.1,,1000,2000,Mon Jan 1 00:00:00 2024,1704067200,alice,5,6,AES-256-GCM")
    (by decide) 1000 2000 1704067200 5 6 (by decide) (by decide) (by decide)
    (by decide) (by decide)

/-- Claim C5: every ROUTING_TABLE field sequence with at least 6 comma-split
fields whose position 5 parses as a base-10 signed integer decodes
successfully into the RoutingInfo with VirtualAddress = field 1,
CommonName = field 2, RealAddress = field 3, and LastRef the epoch-seconds
timestamp of field 5 with zero sub-second component. -/
theorem routing_table_decode_fields_c5 (parts : List String)
    (hlen : 6 ≤ parts.length) (n : Int)
    (h5 : Atoi (parts.getD 5 "") = some n) :
    parseRoutingTableParts parts =
      .ok ⟨parts.getD 1 "", parts.getD 2 "", parts.getD 3 "", ⟨n, 0⟩⟩ := by
  rw [parseRoutingTableParts_eq parts hlen]
  simp only [routingDecodeFields, h5, timeUnix_zero]

theorem routing_table_decode_fields_c5_wit :
    parseRoutingTableEntry
      "ROUTING_TABLE,10.0.0.1,alice,1.2.3.4,Mon Jan 1 00:00:00 2024,1704067200" =
    .ok ⟨"10.0.0.1", "alice", "1.2.3.4", ⟨1704067200, 0⟩⟩ :=
  routing_table_decode_fields_c5
    (splitComma "ROUTING_TABLE,10.0.0.1,alice,1.2.3.4,Mon Jan 1 00:00:00 2024,1704067200")
    (by decide) 1704067200 (by decide)

/-- Claim C6: a line whose leading comma-split field is HEADER, or any marker
other than END, CLIENT_LIST and ROUTING_TABLE (including the empty marker an
empty line splits to), produces no record in either output and no error: the
scan of the lines with it present equals the scan of the remaining lines. -/
theorem unrecognized_marker_skipped_c6 (line : String) (rest : List String)
    (h : (splitComma line).headI = "HEADER" ∨
      ((splitComma line).headI ≠ "END" ∧ (splitComma line).headI ≠ "CLIENT_LIST" ∧
        (splitComma line).headI ≠ "ROUTING_TABLE")) :
    ParseStatusFile (line :: rest) = ParseStatusFile rest := by
  rcases h with hH | ⟨hE, hC, hR⟩
  · exact ParseStatusFile_cons_skip line rest (by rw [hH]; decide) (by rw [hH]; decide)
  · exact ParseStatusFile_cons_skip line rest hC hR

theorem unrecognized_marker_skipped_c6_wit :
    ParseStatusFile ["HEADER,CLIENT_LIST,Common Name", "ROUTING_TABLE,v,n,r,t,7"] =
      ParseStatusFile ["ROUTING_TABLE,v,n,r,t,7"] ∧
    ParseStatusFile ["FOO,bar", "ROUTING_TABLE,v,n,r,t,7"] =
      ParseStatusFile ["ROUTING_TABLE,v,n,r,t,7"] ∧
    ParseStatusFile ["", "ROUTING_TABLE,v,n,r,t,7"] =
      ParseStatusFile ["ROUTING_TABLE,v,n,r,t,7"] :=
  ⟨unrecognized_marker_skipped_c6 "HEADER,CLIENT_LIST,Common Name" _ (Or.inl (by decide)),
   unrecognized_marker_skipped_c6 "FOO,bar" _ (Or.inr (by decide)),
   unrecognized_marker_skipped_c6 "" _ (Or.inr (by decide))⟩

/-- Order-preservation contract of the spec (§4.3), stated from the spec's
words: a successful scan must return exactly the successful CLIENT_LIST
decodes of the input lines, in the order the lines appeared. -/
def specClientRecords (input : List String) : List ClientInfo :=
  input.filterMap fun line =>
    if (splitComma line).headI = "CLIENT_LIST" then
      match parseClientListEntry line with
      | .ok info => some info
      | _ => none
    else none

/-- Order-preservation contract of the spec (§4.3) for routing records, in
input order. -/
def specRoutingRecords (input : List String) : List RoutingInfo :=
  input.filterMap fun line =>
    if (splitComma line).headI = "ROUTING_TABLE" then
      match parseRoutingTableEntry line with
      | .ok info => some info
      | _ => none
    else none

/-- Claim C7: on every input on which the scan succeeds, the returned client
sequence is exactly the in-order sequence of decoded CLIENT_LIST lines and
the routing sequence exactly the in-order sequence of decoded ROUTING_TABLE
lines; interleaved lines of the other kind, and ignored lines, never change
the order within either output sequence. -/
theorem scan_preserves_input_order_c7 (input : List String)
    (cs : List ClientInfo) (rs : List RoutingInfo)
    (h : ParseStatusFile input = .ok (cs, rs)) :
    cs = specClientRecords input ∧ rs = specRoutingRecords input := by
  induction input generalizing cs rs with
  | nil =>
    simp only [ParseStatusFile, ParseResult.ok.injEq, Prod.mk.injEq] at h
    obtain ⟨rfl, rfl⟩ := h
    exact ⟨by simp [specClientRecords], by simp [specRoutingRecords]⟩
  | cons l rest ih =>
    by_cases hC : (splitComma l).headI = "CLIENT_LIST"
    · simp only [ParseStatusFile, hC] at h
      rw [if_neg (by decide), if_neg (by decide), if_pos (by decide)] at h
      rcases hd : parseClientListEntry l with _ | _ | info
      · simp only [hd] at h
        exact ParseResult.noConfusion h
      · simp only [hd] at h
        exact ParseResult.noConfusion h
      · simp only [hd] at h
        rcases hrest : ParseStatusFile rest with _ | _ | ⟨cs', rs'⟩
        · simp only [hrest] at h
          exact ParseResult.noConfusion h
        · simp only [hrest] at h
          exact ParseResult.noConfusion h
        · simp only [hrest, ParseResult.ok.injEq, Prod.mk.injEq] at h
          obtain ⟨h1, h2⟩ := h
          obtain ⟨hc, hr⟩ := ih cs' rs' hrest
          constructor
          · rw [← h1, hc]
            simp [specClientRecords, List.filterMap_cons, hC, hd]
          · rw [← h2, hr]
            simp [specRoutingRecords, List.filterMap_cons, hC]
    · by_cases hR : (splitComma l).headI = "ROUTING_TABLE"
      · simp only [ParseStatusFile, hR] at h
        rw [if_neg (by decide), if_neg (by decide), if_neg (by decide),
          if_pos (by decide)] at h
        rcases hd : parseRoutingTableEntry l with _ | _ | info
        · simp only [hd] at h
          exact ParseResult.noConfusion h
        · simp only [hd] at h
          exact ParseResult.noConfusion h
        · simp only [hd] at h
          rcases hrest : ParseStatusFile rest with _ | _ | ⟨cs', rs'⟩
          · simp only [hrest] at h
            exact ParseResult.noConfusion h
          · simp only [hrest] at h
            exact ParseResult.noConfusion h
          · simp only [hrest, ParseResult.ok.injEq, Prod.mk.injEq] at h
            obtain ⟨h1, h2⟩ := h
            obtain ⟨hc, hr⟩ := ih cs' rs' hrest
            constructor
            · rw [← h1, hc]
              simp [specClientRecords, List.filterMap_cons, hR, hC]
            · rw [← h2, hr]
              simp [specRoutingRecords, List.filterMap_cons, hR, hd]
      · rw [ParseStatusFile_cons_skip l rest hC hR] at h
        obtain ⟨hc, hr⟩ := ih cs rs h
        constructor
        · rw [hc]
          simp [specClientRecords, List.filterMap_cons, hC]
        · rw [hr]
          simp [specRoutingRecords, List.filterMap_cons, hR]

theorem scan_preserves_input_order_c7_wit :
    [(⟨"alice", "1.2.3.4", "10.0.0.1", "", 1000, 2000, ⟨1704067200, 0⟩,
        "alice", 5, 6, "AES-256-GCM"⟩ : ClientInfo)] =
      specClientRecords
        ["HEADER,CLIENT_LIST,Common Name",
          "CLIENT_LIST,alice,1.2.3.4,10.0.0.1,,1000,2000,Mon Jan 1 00:00:00 2024,1704067200,alice,5,6,AES-256-GCM",
          "ROUTING_TABLE,10.0.0.1,alice,1.2.3.4,Mon Jan 1 00:00:00 2024,1704067200"] ∧
    [(⟨"10.0.0.1", "alice", "1.2.3.4", ⟨1704067200, 0⟩⟩ : RoutingInfo)] =
      specRoutingRecords
        ["HEADER,CLIENT_LIST,Common Name",
          "CLIENT_LIST,alice,1.2.3.4,10.0.0.1,,1000,2000,Mon Jan 1 00:00:00 2024,1704067200,alice,5,6,AES-256-GCM",
          "ROUTING_TABLE,10.0.0.1,alice,1.2.3.4,Mon Jan 1 00:00:00 2024,1704067200"] :=
  scan_preserves_input_order_c7
    ["HEADER,CLIENT_LIST,Common Name",
      "CLIENT_LIST,alice,1.2.3.4,10.0.0.1,,1000,2000,Mon Jan 1 00:00:00 2024,1704067200,alice,5,6,AES-256-GCM",
      "ROUTING_TABLE,10.0.0.1,alice,1.2.3.4,Mon Jan 1 00:00:00 2024,1704067200"]
    [⟨"alice", "1.2.3.4", "10.0.0.1", "", 1000, 2000, ⟨1704067200, 0⟩,
      "alice", 5, 6, "AES-256-GCM"⟩]
    [⟨"10.0.0.1", "alice", "1.2.3.4", ⟨1704067200, 0⟩⟩] (by decide)

/-- Claim C8: decoding a valid CLIENT_LIST field sequence with at least 13
well-formed fields and then reading the five integer-derived values back out
of the record — BytesReceived, BytesSent, ClientID, PeerID, and
ConnectedSince re-extracted as Unix epoch seconds — recovers exactly the five
integers parsed from the original fields, and the sub-second component is
zero, so epoch-seconds precision loses nothing. -/
theorem client_list_integer_roundtrip_c8 (parts : List String)
    (h13 : 13 ≤ parts.length) (info : ClientInfo)
    (h : parseClientListParts parts = .ok info) :
    Atoi (parts.getD 5 "") = some info.BytesReceived ∧
    Atoi (parts.getD 6 "") = some info.BytesSent ∧
    Atoi (parts.getD 8 "") = some info.ConnectedSince.sec ∧
    info.ConnectedSince.nsec = 0 ∧
    Atoi (parts.getD 10 "") = some info.ClientID ∧
    Atoi (parts.getD 11 "") = some info.PeerID := by
  rw [parseClientListParts_eq parts h13] at h
  obtain ⟨a, b, c, d, e, f, -⟩ := clientDecodeFields_ok_inv h
  exact ⟨a, b, c, d, e, f⟩

theorem client_list_integer_roundtrip_c8_wit :
    Atoi "1000" = some (1000 : Int) ∧ Atoi "2000" = some (2000 : Int) ∧
    Atoi "1704067200" = some (1704067200 : Int) ∧ (0 : Int) = 0 ∧
    Atoi "5" = some (5 : Int) ∧ Atoi "6" = some (6 : Int) :=
  client_list_integer_roundtrip_c8
    (splitComma "CLIENT_LIST,alice,1.2.3.4,10.0.0.1,,1000,2000,Mon Jan 1 00:00:00 2024,1704067200,alice,5,6,AES-256-GCM")
    (by decide)
    ⟨"alice", "1.2.3.4", "10.0.0.1", "", 1000, 2000, ⟨1704067200, 0⟩,
      "alice", 5, 6, "AES-256-GCM"⟩ (by decide)

/-- Claim C9 fails as stated: `strconv.Atoi` accepts a `-` sign, so a
CLIENT_LIST line with negative numerals in the bytes-received, bytes-sent,
client-ID and peer-ID positions decodes successfully into a record whose four
"non-negative" integer fields are all negative. -/
theorem negative_fields_decode_c9_cex :
    parseClientListEntry "CLIENT_LIST,a,b,c,d,-1,-2,t,9,u,-3,-4,ci" =
      .ok ⟨"a", "b", "c", "d", -1, -2, ⟨9, 0⟩, "u", -3, -4, "ci"⟩ ∧
    (-1 : Int) < 0 ∧ (-2 : Int) < 0 ∧ (-3 : Int) < 0 ∧ (-4 : Int) < 0 := by
  decide

/-- Claim C9 (amended): the decoder itself applies no sign check, so the
cumulative byte counters and the identifiers of a successfully decoded record
are only guaranteed non-negative when their field strings do not begin with a
`-` sign — as in genuine status logs, whose counters and identifiers are
unsigned numerals. -/
theorem unsigned_fields_nonneg_c9 (parts : List String) (info : ClientInfo)
    (h : parseClientListParts parts = .ok info)
    (h5 : (parts.getD 5 "").data.head? ≠ some '-')
    (h6 : (parts.getD 6 "").data.head? ≠ some '-')
    (h10 : (parts.getD 10 "").data.head? ≠ some '-')
    (h11 : (parts.getD 11 "").data.head? ≠ some '-') :
    0 ≤ info.BytesReceived ∧ 0 ≤ info.BytesSent ∧
    0 ≤ info.ClientID ∧ 0 ≤ info.PeerID := by
  have h13 := parseClientListParts_ok_length h
  rw [parseClientListParts_eq parts h13] at h
  obtain ⟨a5, a6, -, -, a10, a11, -⟩ := clientDecodeFields_ok_inv h
  exact ⟨Atoi_nonneg a5 h5, Atoi_nonneg a6 h6, Atoi_nonneg a10 h10,
    Atoi_nonneg a11 h11⟩

theorem unsigned_fields_nonneg_c9_wit :
    (0 : Int) ≤ 1000 ∧ (0 : Int) ≤ 2000 ∧ (0 : Int) ≤ 5 ∧ (0 : Int) ≤ 6 :=
  unsigned_fields_nonneg_c9
    (splitComma "CLIENT_LIST,alice,1.2.3.4,10.0.0.1,,1000,2000,Mon Jan 1 00:00:00 2024,1704067200,alice,5,6,AES-256-GCM")
    ⟨"alice", "1.2.3.4", "10.0.0.1", "", 1000, 2000, ⟨1704067200, 0⟩,
      "alice", 5, 6, "AES-256-GCM"⟩
    (by decide) (by decide) (by decide) (by decide) (by decide)

/-- Claim C10: the client-list decoder reads only positions 1–6 and 8–12 of
the field sequence — two sequences of length at least 13 that agree on those
positions decode to identical results, whatever stands at position 7 (the
ignored display string), at position 0, or beyond position 12; in particular
a sequence with more than 13 fields decodes exactly as its first 13
positions. -/
theorem client_list_field_dependence_c10 :
    (∀ parts parts' : List String, 13 ≤ parts.length → 13 ≤ parts'.length →
      (∀ i ∈ [1, 2, 3, 4, 5, 6, 8, 9, 10, 11, 12],
        parts.getD i "" = parts'.getD i "") →
      parseClientListParts parts = parseClientListParts parts') ∧
    (∀ parts : List String, 13 ≤ parts.length →
      parseClientListParts parts = parseClientListParts (parts.take 13)) := by
  have main : ∀ parts parts' : List String, 13 ≤ parts.length →
      13 ≤ parts'.length →
      (∀ i ∈ [1, 2, 3, 4, 5, 6, 8, 9, 10, 11, 12],
        parts.getD i "" = parts'.getD i "") →
      parseClientListParts parts = parseClientListParts parts' := by
    intro parts parts' hl hl' hag
    rw [parseClientListParts_eq parts hl, parseClientListParts_eq parts' hl',
      hag 1 (by decide), hag 2 (by decide), hag 3 (by decide),
      hag 4 (by decide), hag 5 (by decide), hag 6 (by decide),
      hag 8 (by decide), hag 9 (by decide), hag 10 (by decide),
      hag 11 (by decide), hag 12 (by decide)]
  refine ⟨main, fun parts hl => main parts (parts.take 13) hl ?_ ?_⟩
  · rw [List.length_take]
    omega
  · intro i hi
    exact (getD_take_13 parts i (by fin_cases hi <;> omega)).symm

theorem client_list_field_dependence_c10_wit :
    parseClientListParts
      ["CLIENT_LIST", "a", "b", "c", "d", "1", "2", "Mon Jan 1", "3", "u",
        "4", "5", "ci"] =
    parseClientListParts
      ["IGNORED_MARKER", "a", "b", "c", "d", "1", "2", "other display", "3",
        "u", "4", "5", "ci", "extra", "fields"] :=
  client_list_field_dependence_c10.1
    ["CLIENT_LIST", "a", "b", "c", "d", "1", "2", "Mon Jan 1", "3", "u",
      "4", "5", "ci"]
    ["IGNORED_MARKER", "a", "b", "c", "d", "1", "2", "other display", "3",
      "u", "4", "5", "ci", "extra", "fields"]
    (by decide) (by decide) (by decide)
